import Mathlib

/-!
Verification development for the BGP session timer core of
`ProtocolProcessing_Group2`.

The repository's `src/` holds `BGPSession.hpp` (declarations and doc
comments of the session module), `ControlPlane.hpp/.cpp` (the session
supervisor) and `main.cpp`. The bodies of the `BGPSession` member
functions live in a `BGPSession.cpp` that is not part of `src/`; for
those operations the definitions below are modelled from the spec, as
their doc comments state. Everything translated from `ControlPlane.cpp`
follows that file line by line.

Simulated time is `Nat` (SystemC time is non-negative); an armed timer
is an `Option Nat` absolute deadline, `none` meaning unarmed/cancelled.
A SystemC `sc_event` timer together with its sensitive method is
modelled as: the method's guarded action runs at time `t` exactly when
the corresponding deadline is `some t` (an `sc_event.cancel`, modelled
as setting the deadline to `none`, removes the pending firing).
-/

/-- Modelled from the spec: `BGPSessionParameters.hpp` is not in `src/`.
Per spec section 3, the parameter object holds the hold-down time and the
keepalive fraction; both are stored as C++ `int` in `BGPSession.hpp`
(fields `m_HoldDownTime`, `m_KeepaliveFraction`), here `Nat` since all
times are simulated-time durations. -/
structure BGPSessionParameters where
  m_HoldDownTime : Nat
  m_KeepaliveFraction : Nat
deriving DecidableEq, Repr

/-- Modelled from the spec: derived keepalive interval,
`keepaliveTime = holdDownTime / keepaliveFraction` (integer division),
spec section 3. -/
def BGPSessionParameters.keepaliveTime (p : BGPSessionParameters) : Nat :=
  p.m_HoldDownTime / p.m_KeepaliveFraction

/-- State of one `BGPSession` module (fields of `src/BGPSession.hpp`,
lines 216-261). The two `sc_event` timers `m_BGPHoldDown` and
`m_BGPKeepalive` are represented by their pending absolute deadlines
(`none` = cancelled/unarmed). `m_BGPIdentifierPeer` is the `sc_int<32>`
peer identifier, `none` while no peer is bound. -/
structure BGPSession where
  m_PeeringInterface : Nat
  m_HoldDownTime : Nat
  m_KeepaliveTime : Nat
  m_KeepaliveFraction : Nat
  m_SessionValidity : Bool
  m_BGPIdentifierPeer : Option Int
  m_BGPHoldDown : Option Nat
  m_BGPKeepalive : Option Nat
deriving DecidableEq, Repr

/-- Modelled from the spec: the `BGPSession` constructor body
(`BGPSession.cpp`) is not in `src/`. Per `BGPSession.hpp` lines 71-81 it
binds the peering interface and the session parameters; the session is
not yet started (spec section 4.2: initial state `Stopped`) and no peer
identifier is bound yet (spec section 3: unset = no peer bound). -/
def BGPSession.construct (p_PeeringInterface : Nat)
    (p_SessionParam : BGPSessionParameters) : BGPSession where
  m_PeeringInterface := p_PeeringInterface
  m_HoldDownTime := p_SessionParam.m_HoldDownTime
  m_KeepaliveTime := p_SessionParam.keepaliveTime
  m_KeepaliveFraction := p_SessionParam.m_KeepaliveFraction
  m_SessionValidity := false
  m_BGPIdentifierPeer := none
  m_BGPHoldDown := none
  m_BGPKeepalive := none

/-- Modelled from the spec: `BGPSession::setSessionParameters` body is
not in `src/`. Per `BGPSession.hpp` lines 118-124 and spec sections 3 and
4.2 it stores the hold-down time and keepalive fraction and derives
`keepaliveTime = holdDownTime / keepaliveFraction` (integer division);
it does not rearm in-flight timers (spec sections 4.2 and 9). -/
def BGPSession.setSessionParameters (p_SessionParam : BGPSessionParameters)
    (s : BGPSession) : BGPSession :=
  { s with
    m_HoldDownTime := p_SessionParam.m_HoldDownTime
    m_KeepaliveTime := p_SessionParam.keepaliveTime
    m_KeepaliveFraction := p_SessionParam.m_KeepaliveFraction }

/-- Modelled from the spec: `BGPSession::setPeerIdentifier` body is not
in `src/`. Per `BGPSession.hpp` lines 154-160 it stores the peer's BGP
identifier. -/
def BGPSession.setPeerIdentifier (p_BGPIdentifier : Int) (s : BGPSession) :
    BGPSession :=
  { s with m_BGPIdentifierPeer := some p_BGPIdentifier }

/-- Modelled from the spec: `BGPSession::isThisSession` body is not in
`src/`. Per `BGPSession.hpp` lines 162-170 and spec section 4.2 it is a
pure equality check of the passed identifier against
`m_BGPIdentifierPeer`; an unset identifier matches nothing. -/
def BGPSession.isThisSession (p_BGPIdentifier : Int) (s : BGPSession) : Bool :=
  s.m_BGPIdentifierPeer = some p_BGPIdentifier

/-- Modelled from the spec: `BGPSession::isSessionValid` body is not in
`src/`. Per `BGPSession.hpp` lines 133-138 and spec section 4.2 it is a
pure query returning the current `m_SessionValidity`. -/
def BGPSession.isSessionValid (s : BGPSession) : Bool :=
  s.m_SessionValidity

/-- Modelled from the spec: `BGPSession::sessionStart` body is not in
`src/`. Per `BGPSession.hpp` lines 147-152 and spec section 4.2: arms
HoldDown for `holdDownTime` and Keepalive for `keepaliveTime` from now
(`t` is the current simulated time) and sets the validity flag. -/
def BGPSession.sessionStart (t : Nat) (s : BGPSession) : BGPSession :=
  { s with
    m_SessionValidity := true
    m_BGPHoldDown := some (t + s.m_HoldDownTime)
    m_BGPKeepalive := some (t + s.m_KeepaliveTime) }

/-- Modelled from the spec: `BGPSession::sessionStop` body is not in
`src/`. Per `BGPSession.hpp` lines 140-145 and spec section 4.2: cancels
both timers, so that no keepalive message is sent and no firing is
processed after this call. -/
def BGPSession.sessionStop (s : BGPSession) : BGPSession :=
  { s with
    m_BGPHoldDown := none
    m_BGPKeepalive := none }

/-- Modelled from the spec: `BGPSession::resetHoldDown` body is not in
`src/`. Per `BGPSession.hpp` lines 126-131 and spec section 4.2: rearms
HoldDown for `holdDownTime` from now while the session is valid; a no-op
otherwise (spec section 7, InvariantViolation). -/
def BGPSession.resetHoldDown (t : Nat) (s : BGPSession) : BGPSession :=
  if s.m_SessionValidity then { s with m_BGPHoldDown := some (t + s.m_HoldDownTime) }
  else s

/-- Modelled from the spec: `BGPSession::resetKeepalive` body is not in
`src/`. Per `BGPSession.hpp` lines 172-176 and spec section 4.2: rearms
Keepalive for `keepaliveTime` from now while the session is valid; a
no-op otherwise (spec section 7, InvariantViolation). -/
def BGPSession.resetKeepalive (t : Nat) (s : BGPSession) : BGPSession :=
  if s.m_SessionValidity then { s with m_BGPKeepalive := some (t + s.m_KeepaliveTime) }
  else s

/-- Modelled from the spec: `BGPSession::sendKeepalive` body (the SystemC
method sensitive to `m_BGPKeepalive`, `BGPSession.hpp` lines 103-107) is
not in `src/`. Per spec section 4.2, when the Keepalive timer fires
while `Valid` the session emits one Keepalive message to
`port_ToDataPlane` and rearms Keepalive for `keepaliveTime` from now; it
never touches HoldDown. The returned `Bool` records whether one message
was written to the data-plane port at time `t`; the firing happens
exactly when the pending deadline is `some t` (a cancelled timer never
fires, spec sections 4.1 and 5). -/
def BGPSession.sendKeepalive (t : Nat) (s : BGPSession) : BGPSession × Bool :=
  if s.m_BGPKeepalive = some t ∧ s.m_SessionValidity then
    ({ s with m_BGPKeepalive := some (t + s.m_KeepaliveTime) }, true)
  else (s, false)

/-- Modelled from the spec: `BGPSession::sessionInvalidation` body (the
SystemC method sensitive to `m_BGPHoldDown`, `BGPSession.hpp` lines
109-113) is not in `src/`. Per spec section 4.2, when the HoldDown timer
fires the session becomes invalid (`m_SessionValidity := false`) and the
Keepalive timer is cancelled as part of the transition; the firing
happens exactly when the pending deadline is `some t`. -/
def BGPSession.sessionInvalidation (t : Nat) (s : BGPSession) : BGPSession :=
  if s.m_BGPHoldDown = some t then
    { s with
      m_SessionValidity := false
      m_BGPHoldDown := none
      m_BGPKeepalive := none }
  else s

/-- One unit of simulated time at absolute time `t`: deliver the
Keepalive firing (if pending at `t`), then the HoldDown firing (if
pending at `t`). Keepalive is delivered first so that, when both timers
expire at the same instant, the keepalive message is still emitted and
the session still becomes invalid — both effects occur, matching the
spec's example scenario in section 8 (emission at `t = 180` and
invalidation at `t = 180`). Returns the new state and whether a
keepalive message was emitted at `t`. -/
def BGPSession.tick (t : Nat) (s : BGPSession) : BGPSession × Bool :=
  let ka := s.sendKeepalive t
  (ka.1.sessionInvalidation t, ka.2)

/-- State of the session after `n` time units have elapsed past `t0`,
with no supervisor interference: the ticks at times `t0 + 1 … t0 + n`
are delivered in order. -/
def BGPSession.after (s : BGPSession) (t0 : Nat) : Nat → BGPSession
  | 0 => s
  | n + 1 => ((BGPSession.after s t0 n).tick (t0 + n + 1)).1

/-- Whether a keepalive message is emitted at time `t0 + n` (for
`n ≥ 1`; nothing is emitted at the start instant itself) when the
session runs from `t0` with no supervisor interference. -/
def BGPSession.emitsAt (s : BGPSession) (t0 : Nat) : Nat → Bool
  | 0 => false
  | n + 1 => ((BGPSession.after s t0 n).tick (t0 + n + 1)).2

/-- A BGP message in the control plane's receiving FIFO. Modelled from
the spec: `BGPMessage.hpp` is not in `src/`; the supervisor receives an
opaque message carrying the sender's BGP identifier (spec section 6);
`ControlPlane.cpp` never reads its contents. -/
structure BGPMessage where
  m_BGPIdentifier : Int
deriving DecidableEq, Repr

/-- Observable calls the control plane makes during one activity, on its
sessions and on its collaborator ports (`port_RTManage` for route
management, notification generation). Recording them lets the theorems
speak about which session operations and collaborator calls a wake
cycle actually performs. -/
inductive CPEvent where
  | queryValidity (interfaceIndex : Nat) (result : Bool)
  | withdrawRoutes (interfaceIndex : Nat)
  | notifyInvalid (interfaceIndex : Nat)
  | callResetHoldDown (interfaceIndex : Nat)
  | callResetKeepalive (interfaceIndex : Nat)
  | callSessionStart (interfaceIndex : Nat)
deriving DecidableEq, Repr

/-- `true` exactly for a `isSessionValid` query event. -/
def CPEvent.isValidityQuery : CPEvent → Bool
  | .queryValidity _ _ => true
  | _ => false

/-- State of the `ControlPlane` module (`src/ControlPlane.hpp`):
`m_SessionCount` sessions owned through the `m_BGPSessions` pointer
array (here a list; `ControlPlane.cpp` line 25), and the
`m_ReceivingBuffer` FIFO the data plane writes received messages into. -/
structure ControlPlane where
  m_SessionCount : Nat
  m_BGPSessions : List BGPSession
  m_ReceivingBuffer : List BGPMessage
deriving DecidableEq, Repr

/-- The `ControlPlane` constructor, translated from `ControlPlane.cpp`
lines 13-36: sets the session count and creates, for each
`i < m_SessionCount`, a session for the peer behind interface `i` with
the one default parameter object `p_BGPParameters` passed through
(`m_BGPSessions[i] = new BGPSession("BGP_Session", i, p_BGPParameters)`).
The receiving buffer starts empty; the `SC_THREAD` registration and port
export have no state content to model. -/
def ControlPlane.construct (p_Sessions : Nat)
    (p_BGPParameters : BGPSessionParameters) : ControlPlane where
  m_SessionCount := p_Sessions
  m_BGPSessions :=
    (List.range p_Sessions).map (fun i => BGPSession.construct i p_BGPParameters)
  m_ReceivingBuffer := []

/-- The `ControlPlane` destructor, translated from `ControlPlane.cpp`
lines 38-44: `delete m_BGPSessions[i]` for every `i < m_SessionCount`,
then the array itself is freed. Deleting a session runs `~BGPSession`,
whose body is not in `src/`; modelled from the spec (section 4.3 step 4,
destruction stops and releases every owned session; `BGPSession.hpp`
lines 95-99), deletion stops the session — cancelling both timers — and
releases it. The returned list holds the final state of each session at
the moment it is released, in index order. -/
def ControlPlane.destructor (cp : ControlPlane) : List BGPSession :=
  cp.m_BGPSessions.map (fun s => s.sessionStop)

/-- The start-up phase of `ControlPlane::controlPlaneMain`
(`ControlPlane.cpp` lines 54-58): before entering the loop, the thread
calls `sessionStart()` on every owned session, in index order. `t` is
the simulated time at which the thread first runs. -/
def ControlPlane.startSessions (t : Nat) (cp : ControlPlane) :
    ControlPlane × List CPEvent :=
  ({ cp with m_BGPSessions := cp.m_BGPSessions.map (fun s => s.sessionStart t) },
   (List.range cp.m_SessionCount).map (fun i => CPEvent.callSessionStart i))

/-- The message-buffer check at the top of each wake cycle
(`ControlPlane.cpp` lines 64-69):
`if (m_ReceivingBuffer.num_available() > 0) { /- Handle the message
here -/ }`. The branch body is empty in the source — no message is read,
no session is looked up via `isThisSession`, no `resetHoldDown` or
`resetKeepalive` is called — so both branches leave the state unchanged
and perform no call. -/
def ControlPlane.checkMessages (cp : ControlPlane) :
    ControlPlane × List CPEvent :=
  if 0 < cp.m_ReceivingBuffer.length then
    (cp, [])
  else
    (cp, [])

/-- The session-validity scan of each wake cycle (`ControlPlane.cpp`
lines 74-85): for each session, in index order, call
`isSessionValid()`; the `if (!…isSessionValid())` branch body is empty
in the source (only the comment \"remove the routes behind the interface
i\") — no route withdrawal and no notification happens. The session
object is threaded through the member call; `i` is the index of the
first session in the list. -/
def ControlPlane.scanValidity : List BGPSession → Nat →
    List BGPSession × List CPEvent
  | [], _ => ([], [])
  | s :: rest, i =>
      let v := s.isSessionValid
      let invalidBranch : List CPEvent := if v then [] else []
      let tail := ControlPlane.scanValidity rest (i + 1)
      (s :: tail.1, CPEvent.queryValidity i v :: (invalidBranch ++ tail.2))

/-- One wake cycle of the `while(true)` loop of
`ControlPlane::controlPlaneMain` (`ControlPlane.cpp` lines 60-88), after
the `wait()` returns: check the receiving buffer, then scan every
session's validity. Returns the control-plane state after the cycle and
the trace of calls the cycle performed. -/
def ControlPlane.wakeCycle (cp : ControlPlane) : ControlPlane × List CPEvent :=
  let afterMsg := cp.checkMessages
  let scanned := ControlPlane.scanValidity afterMsg.1.m_BGPSessions 0
  ({ afterMsg.1 with m_BGPSessions := scanned.1 }, afterMsg.2 ++ scanned.2)

/-!
Arbitration model for the Keepalive deadline (`m_KeepaliveMutex`,
`BGPSession.hpp` lines 191-196). The Keepalive deadline can be reset
either internally by the session's own keepalive-firing handler or
externally by the Control Plane; `BGPSession.cpp` is not in `src/`, so
the arbitration is modelled from the spec (section 5 and section 4.2,
`resetKeepalive`): each caller acquires the per-session mutex, writes
the deadline, and releases — acquire-modify-release — and whichever
completes last determines the final deadline. The two racing calls are
two threads, each running `lock; write own deadline; unlock`; a
scheduler chooses at every step which thread runs. The deadline value is
abstracted to which write produced it, which is what torn-value freedom
is about. -/

/-- Which value the shared Keepalive deadline holds: its initial value,
or the value requested by the internal (session) caller, or the value
requested by the external (control-plane) caller. -/
inductive KaDeadlineVal where
  | initial
  | internalVal
  | externalVal
deriving DecidableEq, Repr

/-- Program counter of one `resetKeepalive` caller: about to lock the
mutex, holding it before the write, holding it after the write, or
finished (unlocked). -/
inductive KaCallerPC where
  | atLock
  | locked
  | written
  | finished
deriving DecidableEq, Repr

/-- Joint state of the two racing `resetKeepalive` calls on one session:
each caller's program counter, the holder of `m_KeepaliveMutex`
(`none` = free, `some true` = internal caller, `some false` = external
caller), and the shared Keepalive deadline. -/
structure KaRace where
  internalPC : KaCallerPC
  externalPC : KaCallerPC
  mutexHolder : Option Bool
  deadline : KaDeadlineVal
deriving DecidableEq, Repr

/-- Initial state of the race: both callers are about to lock, the mutex
is free, the deadline holds its prior value. -/
def KaRace.init : KaRace where
  internalPC := .atLock
  externalPC := .atLock
  mutexHolder := none
  deadline := .initial

/-- One scheduler step: the chosen caller (`true` = internal, `false` =
external) advances by one instruction if it can. A caller at `lock`
blocks (state unchanged) while the other holds the mutex; inside the
critical section it writes its own value to the deadline; then it
unlocks and finishes. -/
def KaRace.step (who : Bool) (st : KaRace) : KaRace :=
  if who then
    match st.internalPC with
    | .atLock =>
        if st.mutexHolder = none then
          { st with internalPC := .locked, mutexHolder := some true }
        else st
    | .locked => { st with internalPC := .written, deadline := .internalVal }
    | .written => { st with internalPC := .finished, mutexHolder := none }
    | .finished => st
  else
    match st.externalPC with
    | .atLock =>
        if st.mutexHolder = none then
          { st with externalPC := .locked, mutexHolder := some false }
        else st
    | .locked => { st with externalPC := .written, deadline := .externalVal }
    | .written => { st with externalPC := .finished, mutexHolder := none }
    | .finished => st

/-- Run the race under a scheduler: the list gives, oldest first, which
caller is scheduled at each step. -/
def KaRace.run (sched : List Bool) : KaRace :=
  sched.foldl (fun st who => KaRace.step who st) KaRace.init

/-- Both `resetKeepalive` calls have completed. -/
def KaRace.bothDone (st : KaRace) : Bool :=
  st.internalPC = .finished ∧ st.externalPC = .finished

/-- The state invariant of the race: the mutex holder matches the
program counters (mutual exclusion), the deadline is never a torn value
— always the initial one or one of the two requested ones — once a
caller has written or finished, and once either caller has finished the
deadline is one of the two requested values. -/
def KaRace.inv (st : KaRace) : Bool :=
  (st.mutexHolder = some true ↔
    (st.internalPC = .locked ∨ st.internalPC = .written)) ∧
  (st.mutexHolder = some false ↔
    (st.externalPC = .locked ∨ st.externalPC = .written)) ∧
  (st.internalPC = .written → st.deadline = .internalVal) ∧
  (st.externalPC = .written → st.deadline = .externalVal) ∧
  (st.internalPC = .finished ∨ st.externalPC = .finished →
    st.deadline = .internalVal ∨ st.deadline = .externalVal)

/-- Reference state for the closed form of a running session: `n` time
units after a `sessionStart` at `t0`, while HoldDown has not yet
expired, the session is valid, HoldDown is armed for
`t0 + holdDownTime`, and Keepalive is armed for the next multiple of
`keepaliveTime` past `t0 + n`. -/
def BGPSession.runningState (s0 : BGPSession) (t0 n : Nat) : BGPSession :=
  { s0 with
    m_SessionValidity := true
    m_BGPHoldDown := some (t0 + s0.m_HoldDownTime)
    m_BGPKeepalive :=
      some (t0 + n / s0.m_KeepaliveTime * s0.m_KeepaliveTime + s0.m_KeepaliveTime) }

/-- Reference state for the closed form of a running session after
HoldDown expiry: invalid, both timers cancelled. -/
def BGPSession.invalidState (s0 : BGPSession) : BGPSession :=
  { s0 with
    m_SessionValidity := false
    m_BGPHoldDown := none
    m_BGPKeepalive := none }

deriving instance Fintype for KaCallerPC

deriving instance Fintype for KaDeadlineVal

deriving instance Fintype for KaRace

/-- Arithmetic helper: if `ka` divides `n + 1` then the pending
keepalive deadline offset `n / ka * ka + ka` equals `n + 1`. -/
theorem ka_offset_eq_of_dvd {ka n : Nat} (h : ka ∣ n + 1) :
    n / ka * ka + ka = n + 1 := by
  have h1 : (n + 1) / ka = n / ka + 1 := Nat.succ_div_of_dvd h
  have h2 : (n + 1) / ka * ka = n + 1 := Nat.div_mul_cancel h
  calc n / ka * ka + ka = (n / ka + 1) * ka := by ring
    _ = (n + 1) / ka * ka := by rw [h1]
    _ = n + 1 := h2

/-- Arithmetic helper: if `ka` does not divide `n + 1` then the pending
keepalive deadline offset `n / ka * ka + ka` is not `n + 1`. -/
theorem ka_offset_ne_of_not_dvd {ka n : Nat} (h : ¬ ka ∣ n + 1) :
    n / ka * ka + ka ≠ n + 1 := by
  intro heq
  refine h ⟨n / ka + 1, ?_⟩
  rw [← heq]
  ring

/-- On a running state whose HoldDown has not expired by `t0 + n + 1`,
the tick at `t0 + n + 1` emits a keepalive exactly when `keepaliveTime`
divides `n + 1`, and the state stays the running state at `n + 1`. -/
theorem BGPSession.tick_runningState (s0 : BGPSession) (t0 n : Nat)
    (hlt : n + 1 < s0.m_HoldDownTime) :
    (s0.runningState t0 n).tick (t0 + n + 1)
      = (s0.runningState t0 (n + 1), decide (s0.m_KeepaliveTime ∣ n + 1)) := by
  have hhd : ¬ (t0 + s0.m_HoldDownTime = t0 + n + 1) := by omega
  by_cases hdvd : s0.m_KeepaliveTime ∣ n + 1
  · have heq : n / s0.m_KeepaliveTime * s0.m_KeepaliveTime + s0.m_KeepaliveTime
        = n + 1 := ka_offset_eq_of_dvd hdvd
    have hdl : t0 + n / s0.m_KeepaliveTime * s0.m_KeepaliveTime + s0.m_KeepaliveTime
        = t0 + n + 1 := by omega
    have hnext : (n + 1) / s0.m_KeepaliveTime * s0.m_KeepaliveTime = n + 1 :=
      Nat.div_mul_cancel hdvd
    simp only [BGPSession.tick, BGPSession.sendKeepalive,
      BGPSession.sessionInvalidation, BGPSession.runningState]
    simp [hdl, hhd, hdvd, hnext]
    all_goals omega
  · have hne : ¬ (t0 + n / s0.m_KeepaliveTime * s0.m_KeepaliveTime + s0.m_KeepaliveTime
        = t0 + n + 1) := by
      intro habs
      exact ka_offset_ne_of_not_dvd hdvd (by omega)
    have hdiv : (n + 1) / s0.m_KeepaliveTime = n / s0.m_KeepaliveTime :=
      Nat.succ_div_of_not_dvd hdvd
    simp only [BGPSession.tick, BGPSession.sendKeepalive,
      BGPSession.sessionInvalidation, BGPSession.runningState]
    simp [hne, hhd, hdvd, hdiv]

/-- On a running state whose HoldDown expires exactly at `t0 + n + 1`,
the tick at `t0 + n + 1` still emits a keepalive when `keepaliveTime`
divides `n + 1` (keepalive is delivered first), and the session becomes
the invalid state: validity cleared, both timers cancelled. -/
theorem BGPSession.tick_runningState_expire (s0 : BGPSession) (t0 n : Nat)
    (hexp : n + 1 = s0.m_HoldDownTime) :
    (s0.runningState t0 n).tick (t0 + n + 1)
      = (s0.invalidState, decide (s0.m_KeepaliveTime ∣ n + 1)) := by
  have hhd : t0 + s0.m_HoldDownTime = t0 + n + 1 := by omega
  by_cases hdvd : s0.m_KeepaliveTime ∣ n + 1
  · have heq : n / s0.m_KeepaliveTime * s0.m_KeepaliveTime + s0.m_KeepaliveTime
        = n + 1 := ka_offset_eq_of_dvd hdvd
    have hdl : t0 + n / s0.m_KeepaliveTime * s0.m_KeepaliveTime + s0.m_KeepaliveTime
        = t0 + n + 1 := by omega
    simp only [BGPSession.tick, BGPSession.sendKeepalive,
      BGPSession.sessionInvalidation, BGPSession.runningState,
      BGPSession.invalidState]
    simp [hdl, hhd, hdvd]
  · have hne : ¬ (t0 + n / s0.m_KeepaliveTime * s0.m_KeepaliveTime + s0.m_KeepaliveTime
        = t0 + n + 1) := by
      intro habs
      exact ka_offset_ne_of_not_dvd hdvd (by omega)
    simp only [BGPSession.tick, BGPSession.sendKeepalive,
      BGPSession.sessionInvalidation, BGPSession.runningState,
      BGPSession.invalidState]
    simp [hne, hhd, hdvd]

/-- Ticks are no-ops on the invalid state: both timers are cancelled, so
neither firing can be delivered and nothing is emitted. -/
theorem BGPSession.tick_invalidState (s0 : BGPSession) (t : Nat) :
    s0.invalidState.tick t = (s0.invalidState, false) := by
  simp [BGPSession.tick, BGPSession.sendKeepalive,
    BGPSession.sessionInvalidation, BGPSession.invalidState]



/-- Closed form for a session running from `sessionStart` at `t0` with
no supervisor interference: after `n` elapsed time units the session is
the running reference state while `n < holdDownTime`, and the invalid
reference state from `n = holdDownTime` on. Requires positive
parameters (spec section 7 rejects non-positive intervals). -/
theorem BGPSession.after_sessionStart (s0 : BGPSession) (t0 : Nat)
    (hhd : 1 ≤ s0.m_HoldDownTime) (n : Nat) :
    (s0.sessionStart t0).after t0 n =
      if n < s0.m_HoldDownTime then s0.runningState t0 n else s0.invalidState := by
  induction n with
  | zero =>
      rw [if_pos (show 0 < s0.m_HoldDownTime from hhd)]
      simp [BGPSession.after, BGPSession.sessionStart, BGPSession.runningState]
  | succ n ih =>
      have hstep : (s0.sessionStart t0).after t0 (n + 1)
          = (((s0.sessionStart t0).after t0 n).tick (t0 + n + 1)).1 := rfl
      rw [hstep, ih]
      rcases Nat.lt_trichotomy (n + 1) s0.m_HoldDownTime with h1 | h1 | h1
      · have hn : n < s0.m_HoldDownTime := Nat.lt_of_succ_lt h1
        rw [if_pos hn, if_pos h1, BGPSession.tick_runningState s0 t0 n h1]
      · have hn : n < s0.m_HoldDownTime := by omega
        have hnot : ¬ (n + 1 < s0.m_HoldDownTime) := by omega
        rw [if_pos hn, if_neg hnot, BGPSession.tick_runningState_expire s0 t0 n h1]
      · have hn : ¬ (n < s0.m_HoldDownTime) := by omega
        have hnot : ¬ (n + 1 < s0.m_HoldDownTime) := by omega
        rw [if_neg hn, if_neg hnot, BGPSession.tick_invalidState]

/-- Closed form for the keepalive emissions of a session running from
`sessionStart` at `t0` with no supervisor interference: a message is
emitted at `t0 + m` exactly when `m` is a positive multiple of
`keepaliveTime` that is at most `holdDownTime`. -/
theorem BGPSession.emitsAt_sessionStart (s0 : BGPSession) (t0 : Nat)
    (hhd : 1 ≤ s0.m_HoldDownTime) (m : Nat) :
    (s0.sessionStart t0).emitsAt t0 m = true ↔
      (1 ≤ m ∧ s0.m_KeepaliveTime ∣ m ∧ m ≤ s0.m_HoldDownTime) := by
  match m with
  | 0 => simp [BGPSession.emitsAt]
  | n + 1 =>
      have hstep : (s0.sessionStart t0).emitsAt t0 (n + 1)
          = (((s0.sessionStart t0).after t0 n).tick (t0 + n + 1)).2 := rfl
      rw [hstep, BGPSession.after_sessionStart s0 t0 hhd n]
      rcases Nat.lt_trichotomy (n + 1) s0.m_HoldDownTime with h1 | h1 | h1
      · have hn : n < s0.m_HoldDownTime := Nat.lt_of_succ_lt h1
        rw [if_pos hn, BGPSession.tick_runningState s0 t0 n h1]
        simp
        intro hd
        omega
      · have hn : n < s0.m_HoldDownTime := by omega
        rw [if_pos hn, BGPSession.tick_runningState_expire s0 t0 n h1]
        simp
        intro hd
        omega
      · have hn : ¬ (n < s0.m_HoldDownTime) := by omega
        rw [if_neg hn, BGPSession.tick_invalidState]
        simp
        intro h2
        omega

/-- The race invariant holds in the initial state. -/
theorem KaRace.inv_init : KaRace.init.inv = true := by decide

set_option maxRecDepth 100000 in
/-- Every scheduler step preserves the race invariant. -/
theorem KaRace.inv_step :
    ∀ (who : Bool) (st : KaRace), st.inv = true → (st.step who).inv = true := by
  decide

/-- The race invariant holds along every schedule, from any state
satisfying it. -/
theorem KaRace.inv_foldl (sched : List Bool) :
    ∀ st : KaRace, st.inv = true →
      (sched.foldl (fun st who => KaRace.step who st) st).inv = true := by
  induction sched with
  | nil => intro st h; exact h
  | cons who rest ih =>
      intro st h
      exact ih (st.step who) (KaRace.inv_step who st h)

/-- The race invariant holds in every reachable state of the race. -/
theorem KaRace.inv_run (sched : List Bool) : (KaRace.run sched).inv = true :=
  KaRace.inv_foldl sched KaRace.init KaRace.inv_init

set_option maxRecDepth 100000 in
/-- In every invariant state in which the two calls have not both
completed, some caller can still take a step: the race never
deadlocks. -/
theorem KaRace.progress :
    ∀ st : KaRace, st.inv = true → st.bothDone = false →
      ∃ who, st.step who ≠ st := by
  decide

set_option maxRecDepth 100000 in
/-- In every invariant state in which both calls have completed, the
shared deadline holds one of the two requested values, never the stale
initial one and never anything else. -/
theorem KaRace.done_deadline :
    ∀ st : KaRace, st.inv = true → st.bothDone = true →
      st.deadline = KaDeadlineVal.internalVal ∨
      st.deadline = KaDeadlineVal.externalVal := by
  decide

/-- Frame lemma for the supervisor's validity scan: the scan returns the
session list unchanged and its trace consists of validity queries only
(the invalid-session branch of `ControlPlane.cpp` lines 77-82 is
empty). -/
theorem ControlPlane.scanValidity_frame (l : List BGPSession) (i : Nat) :
    (ControlPlane.scanValidity l i).1 = l ∧
    (ControlPlane.scanValidity l i).2.all CPEvent.isValidityQuery = true := by
  induction l generalizing i with
  | nil => simp [ControlPlane.scanValidity]
  | cons s rest ih =>
      have h := ih (i + 1)
      simp [ControlPlane.scanValidity, CPEvent.isValidityQuery, h.1, h.2]

/-- The message-buffer check of the wake cycle does nothing: both
branches of the `if` in `ControlPlane.cpp` lines 65-69 are empty. -/
theorem ControlPlane.checkMessages_eq (cp : ControlPlane) :
    cp.checkMessages = (cp, []) := by
  unfold ControlPlane.checkMessages
  split <;> rfl

/-- C2: for every session with a positive hold-down time, if
`sessionStart()` is called at simulated time `t0` and no
`resetHoldDown()` occurs thereafter, then `isSessionValid()` is `true`
at `t0 + n` exactly while `n < holdDownTime`: the flag transitions from
`true` to `false` exactly once, at simulated time
`t0 + holdDownTime`. -/
theorem sessionValid_iff_before_holdDown (s0 : BGPSession) (t0 n : Nat)
    (hhd : 1 ≤ s0.m_HoldDownTime) :
    ((s0.sessionStart t0).after t0 n).isSessionValid = true ↔
      n < s0.m_HoldDownTime := by
  rw [BGPSession.after_sessionStart s0 t0 hhd n]
  by_cases h : n < s0.m_HoldDownTime
  · simp [h, BGPSession.runningState, BGPSession.isSessionValid]
  · simp [h, BGPSession.invalidState, BGPSession.isSessionValid]

/-- Witness for C2 at `holdDownTime = 6`, `keepaliveFraction = 3`,
started at `t0 = 0`: valid at `t = 5`, invalid at `t = 6`. -/
theorem sessionValid_iff_before_holdDown_witness :
    ((((BGPSession.construct 0 ⟨6, 3⟩).sessionStart 0).after 0 5).isSessionValid
        = true ↔ 5 < (BGPSession.construct 0 ⟨6, 3⟩).m_HoldDownTime) ∧
    ((((BGPSession.construct 0 ⟨6, 3⟩).sessionStart 0).after 0 6).isSessionValid
        = true ↔ 6 < (BGPSession.construct 0 ⟨6, 3⟩).m_HoldDownTime) :=
  ⟨sessionValid_iff_before_holdDown (BGPSession.construct 0 ⟨6, 3⟩) 0 5 (by decide),
   sessionValid_iff_before_holdDown (BGPSession.construct 0 ⟨6, 3⟩) 0 6 (by decide)⟩

/-- C3: for every session with positive hold-down and keepalive times,
started at `t0` and left running with no external `resetKeepalive()`
calls, exactly one keepalive message is emitted to the data-plane port
at each time `t0 + k * keepaliveTime` (`k = 1, 2, …`) and at no other
time, until the session is invalidated by HoldDown expiry (the emission
at the expiry instant itself still happens, matching the spec's example
scenario). -/
theorem keepalive_emitted_iff_multiple (s0 : BGPSession) (t0 m : Nat)
    (hhd : 1 ≤ s0.m_HoldDownTime) (hka : 1 ≤ s0.m_KeepaliveTime) :
    (s0.sessionStart t0).emitsAt t0 m = true ↔
      ((∃ k, 1 ≤ k ∧ m = k * s0.m_KeepaliveTime) ∧ m ≤ s0.m_HoldDownTime) := by
  rw [BGPSession.emitsAt_sessionStart s0 t0 hhd m]
  constructor
  · rintro ⟨h1, ⟨c, hc⟩, h3⟩
    refine ⟨⟨c, ?_, ?_⟩, h3⟩
    · rcases Nat.eq_zero_or_pos c with h0 | h0
      · subst h0
        simp at hc
        omega
      · exact h0
    · rw [hc]
      ring
  · rintro ⟨⟨k, hk1, hk2⟩, h3⟩
    refine ⟨?_, ⟨k, ?_⟩, h3⟩
    · have hpos : 0 < k * s0.m_KeepaliveTime := Nat.mul_pos hk1 hka
      omega
    · rw [hk2]
      ring

/-- Witness for C3 at `holdDownTime = 6`, `keepaliveTime = 2`, started
at `t0 = 0`: a message is emitted at `t = 4` (the multiple `2 * 2`), and
at `t = 8` (a multiple past the hold-down expiry) none is emitted. -/
theorem keepalive_emitted_iff_multiple_witness :
    (((BGPSession.construct 0 ⟨6, 3⟩).sessionStart 0).emitsAt 0 4 = true ↔
      ((∃ k, 1 ≤ k ∧ 4 = k * (BGPSession.construct 0 ⟨6, 3⟩).m_KeepaliveTime) ∧
        4 ≤ (BGPSession.construct 0 ⟨6, 3⟩).m_HoldDownTime)) ∧
    (((BGPSession.construct 0 ⟨6, 3⟩).sessionStart 0).emitsAt 0 8 = true ↔
      ((∃ k, 1 ≤ k ∧ 8 = k * (BGPSession.construct 0 ⟨6, 3⟩).m_KeepaliveTime) ∧
        8 ≤ (BGPSession.construct 0 ⟨6, 3⟩).m_HoldDownTime)) :=
  ⟨keepalive_emitted_iff_multiple (BGPSession.construct 0 ⟨6, 3⟩) 0 4
      (by decide) (by decide),
   keepalive_emitted_iff_multiple (BGPSession.construct 0 ⟨6, 3⟩) 0 8
      (by decide) (by decide)⟩

/-- C5 counterexample: with `holdDownTime = 180` and
`keepaliveFraction = 1` — values no parametrization code anywhere
rejects — `setSessionParameters` derives `keepaliveTime = 180 / 1 = 180`,
so `holdDownTime` is not strictly greater than `keepaliveTime`, refuting
the claimed invariant at this input. -/
theorem setSessionParameters_fraction_one_refutes :
    ¬ (((BGPSession.construct 0 ⟨180, 3⟩).setSessionParameters
          ⟨180, 1⟩).m_KeepaliveTime
        < ((BGPSession.construct 0 ⟨180, 3⟩).setSessionParameters
          ⟨180, 1⟩).m_HoldDownTime) := by
  decide

/-- C5 (amended): at every point where parameters are set — both the
constructor and `setSessionParameters` — `keepaliveTime` equals
`holdDownTime / keepaliveFraction` by integer division; and whenever the
configured fraction is at least `2` and no larger than the hold-down
time (as in the spec's example `180 / 3`), the derived values satisfy
`holdDownTime > keepaliveTime > 0`. -/
theorem sessionParameters_derivation (p : BGPSessionParameters)
    (s : BGPSession) (i : Nat) (h2 : 2 ≤ p.m_KeepaliveFraction)
    (hge : p.m_KeepaliveFraction ≤ p.m_HoldDownTime) :
    (s.setSessionParameters p).m_KeepaliveTime
        = (s.setSessionParameters p).m_HoldDownTime
            / (s.setSessionParameters p).m_KeepaliveFraction ∧
    (BGPSession.construct i p).m_KeepaliveTime
        = (BGPSession.construct i p).m_HoldDownTime
            / (BGPSession.construct i p).m_KeepaliveFraction ∧
    (s.setSessionParameters p).m_KeepaliveTime
        < (s.setSessionParameters p).m_HoldDownTime ∧
    0 < (s.setSessionParameters p).m_KeepaliveTime := by
  have hhd : 0 < p.m_HoldDownTime := by omega
  have hlt : p.m_HoldDownTime / p.m_KeepaliveFraction < p.m_HoldDownTime :=
    Nat.div_lt_self hhd (by omega)
  have hpos : 0 < p.m_HoldDownTime / p.m_KeepaliveFraction :=
    (Nat.one_le_div_iff (by omega)).mpr hge
  exact ⟨rfl, rfl, hlt, hpos⟩

/-- Witness for C5 (amended) at the spec's example parameters
`holdDownTime = 180`, `keepaliveFraction = 3`. -/
theorem sessionParameters_derivation_witness :
    ((BGPSession.construct 0 ⟨180, 3⟩).setSessionParameters
        ⟨180, 3⟩).m_KeepaliveTime
      = ((BGPSession.construct 0 ⟨180, 3⟩).setSessionParameters
        ⟨180, 3⟩).m_HoldDownTime
          / ((BGPSession.construct 0 ⟨180, 3⟩).setSessionParameters
            ⟨180, 3⟩).m_KeepaliveFraction ∧
    (BGPSession.construct 0 ⟨180, 3⟩).m_KeepaliveTime
      = (BGPSession.construct 0 ⟨180, 3⟩).m_HoldDownTime
          / (BGPSession.construct 0 ⟨180, 3⟩).m_KeepaliveFraction ∧
    ((BGPSession.construct 0 ⟨180, 3⟩).setSessionParameters
        ⟨180, 3⟩).m_KeepaliveTime
      < ((BGPSession.construct 0 ⟨180, 3⟩).setSessionParameters
        ⟨180, 3⟩).m_HoldDownTime ∧
    0 < ((BGPSession.construct 0 ⟨180, 3⟩).setSessionParameters
        ⟨180, 3⟩).m_KeepaliveTime :=
  sessionParameters_derivation ⟨180, 3⟩ (BGPSession.construct 0 ⟨180, 3⟩) 0
    (by decide) (by decide)

/-- C6: after `sessionStop()` both timers are cancelled, so any
in-flight Timer firing that subsequently arrives — a late
`sendKeepalive` or `sessionInvalidation` delivery at any time `t`, or
any whole sequence of elapsed time units — is a no-op: no keepalive is
emitted, the validity flag and every other field are unchanged, and no
timer is re-armed. -/
theorem sessionStop_late_firings_noop (s : BGPSession) (t t0 n : Nat) :
    s.sessionStop.sendKeepalive t = (s.sessionStop, false) ∧
    s.sessionStop.sessionInvalidation t = s.sessionStop ∧
    s.sessionStop.after t0 n = s.sessionStop := by
  refine ⟨?_, ?_, ?_⟩
  · simp [BGPSession.sessionStop, BGPSession.sendKeepalive]
  · simp [BGPSession.sessionStop, BGPSession.sessionInvalidation]
  · induction n with
    | zero => rfl
    | succ n ih =>
        show ((s.sessionStop.after t0 n).tick (t0 + n + 1)).1 = s.sessionStop
        rw [ih]
        simp [BGPSession.tick, BGPSession.sendKeepalive,
          BGPSession.sessionInvalidation, BGPSession.sessionStop]

/-- C7: the two racing `resetKeepalive` callers — the session's internal
keepalive-firing handler and the supervisor — serialized by
`m_KeepaliveMutex`, never deadlock (in every reachable state where the
two calls have not both finished, some caller can still step), and once
both calls complete the shared keepalive deadline equals the value
requested by one of the two callers, never the stale initial value and
never a torn intermediate (the deadline only ever holds a whole written
value, by the mutual-exclusion invariant). -/
theorem resetKeepalive_race_serializes (sched : List Bool) :
    ((KaRace.run sched).bothDone = false →
      ∃ who, (KaRace.run sched).step who ≠ KaRace.run sched) ∧
    ((KaRace.run sched).bothDone = true →
      (KaRace.run sched).deadline = KaDeadlineVal.internalVal ∨
      (KaRace.run sched).deadline = KaDeadlineVal.externalVal) := by
  have hinv := KaRace.inv_run sched
  exact ⟨KaRace.progress (KaRace.run sched) hinv,
    KaRace.done_deadline (KaRace.run sched) hinv⟩

/-- Witness for C7: under the schedule that runs the internal caller to
completion and then the external caller, both calls complete and the
deadline is one of the two requested values (here the external one). -/
theorem resetKeepalive_race_serializes_witness :
    (KaRace.run [true, true, true, false, false, false]).bothDone = true ∧
    ((KaRace.run [true, true, true, false, false, false]).deadline
        = KaDeadlineVal.internalVal ∨
      (KaRace.run [true, true, true, false, false, false]).deadline
        = KaDeadlineVal.externalVal) :=
  ⟨by decide,
   (resetKeepalive_race_serializes [true, true, true, false, false, false]).2
     (by decide)⟩

/-- C9: one supervisor wake cycle, as written in `ControlPlane.cpp`
lines 60-88, mutates no session state: `isSessionValid()` is the only
session operation invoked (every event of the cycle's trace is a
validity query), the received-message branch and the invalid-session
branch are empty, so the whole control-plane state — every session's
validity flag, peer identifier, parameters and timer deadlines, and the
receiving buffer — is unchanged across the cycle. -/
theorem wakeCycle_mutates_nothing (cp : ControlPlane) :
    cp.wakeCycle.1 = cp ∧
    cp.wakeCycle.2.all CPEvent.isValidityQuery = true := by
  have hscan := ControlPlane.scanValidity_frame cp.m_BGPSessions 0
  constructor
  · show ({ (cp.checkMessages).1 with
        m_BGPSessions :=
          (ControlPlane.scanValidity (cp.checkMessages).1.m_BGPSessions 0).1 }
      : ControlPlane) = cp
    rw [ControlPlane.checkMessages_eq]
    show ({ cp with
        m_BGPSessions := (ControlPlane.scanValidity cp.m_BGPSessions 0).1 }
      : ControlPlane) = cp
    rw [hscan.1]
  · show ((cp.checkMessages).2
        ++ (ControlPlane.scanValidity (cp.checkMessages).1.m_BGPSessions 0).2).all
          CPEvent.isValidityQuery = true
    rw [ControlPlane.checkMessages_eq]
    simpa using hscan.2

/-- C1 evaluation at the failing input: a wake cycle on a control plane
owning one invalid session. The cycle queries the session's validity
(getting `false`) but, the invalid-session branch of `ControlPlane.cpp`
lines 77-82 being empty, its trace contains no `withdrawRoutes` call on
the routing-table collaborator and no notification event — contrary to
the claimed reaction. -/
theorem wakeCycle_invalidSession_noWithdrawal :
    (ControlPlane.wakeCycle
        ⟨1, [BGPSession.construct 0 ⟨6, 3⟩], []⟩).2
      = [CPEvent.queryValidity 0 false] := by
  decide

/-- C4 evaluation at the failing input: a wake cycle on a control plane
whose receiving buffer holds one message from peer `7`, owning one
started session bound to peer `7` (so `isThisSession 7` would return
`true`). The message branch of `ControlPlane.cpp` lines 65-69 being
empty, the cycle's trace contains no `resetHoldDown` and no
`resetKeepalive` call — contrary to the claimed contract. -/
theorem wakeCycle_message_noResetHoldDown :
    (((ControlPlane.wakeCycle
          ⟨1, [((BGPSession.construct 0 ⟨6, 3⟩).sessionStart 0).setPeerIdentifier 7],
            [⟨7⟩]⟩).2)
      = [CPEvent.queryValidity 0 true]) ∧
    (((BGPSession.construct 0 ⟨6, 3⟩).sessionStart 0).setPeerIdentifier 7).isThisSession 7
      = true := by
  refine ⟨by decide, by decide⟩

/-- C8: the `ControlPlane` destructor releases every owned session —
one release per owned index, in order — and each released session has
been stopped: both its timers are cancelled at the moment it is
released. -/
theorem controlPlane_destructor_stops_and_releases (cp : ControlPlane)
    (hlen : cp.m_BGPSessions.length = cp.m_SessionCount) :
    cp.destructor.length = cp.m_SessionCount ∧
    cp.destructor.all
        (fun s => s.m_BGPHoldDown.isNone && s.m_BGPKeepalive.isNone) = true := by
  constructor
  · simp [ControlPlane.destructor, hlen]
  · simp [ControlPlane.destructor, BGPSession.sessionStop, List.all_eq_true]

/-- Witness for C8 on a control plane of two sessions built by the
`ControlPlane` constructor. -/
theorem controlPlane_destructor_stops_and_releases_witness :
    (ControlPlane.construct 2 ⟨6, 3⟩).destructor.length
        = (ControlPlane.construct 2 ⟨6, 3⟩).m_SessionCount ∧
    (ControlPlane.construct 2 ⟨6, 3⟩).destructor.all
        (fun s => s.m_BGPHoldDown.isNone && s.m_BGPKeepalive.isNone) = true :=
  controlPlane_destructor_stops_and_releases (ControlPlane.construct 2 ⟨6, 3⟩)
    (by decide)

/-- C10: at supervisor construction with `n` sessions and default
parameter object `p`, the session stored at every collection index
`i < n` is exactly `BGPSession.construct i p`: its peering interface is
`i` (so the interfaces are the distinct consecutive indices
`0 … n - 1`), and its hold-down time, keepalive fraction and derived
keepalive time all come from the single shared `p`, identical across
sessions; and the stored session count is `n`. -/
theorem controlPlane_construct_sessions (n i : Nat)
    (p : BGPSessionParameters) (h : i < n) :
    (ControlPlane.construct n p).m_SessionCount = n ∧
    (ControlPlane.construct n p).m_BGPSessions[i]?
        = some (BGPSession.construct i p) ∧
    (BGPSession.construct i p).m_PeeringInterface = i ∧
    (BGPSession.construct i p).m_HoldDownTime = p.m_HoldDownTime ∧
    (BGPSession.construct i p).m_KeepaliveFraction = p.m_KeepaliveFraction ∧
    (BGPSession.construct i p).m_KeepaliveTime = p.keepaliveTime := by
  refine ⟨rfl, ?_, rfl, rfl, rfl, rfl⟩
  simp [ControlPlane.construct, List.getElem?_map, List.getElem?_range, h]

/-- Witness for C10 at `n = 3`, `i = 2`, the spec's example
parameters. -/
theorem controlPlane_construct_sessions_witness :
    (ControlPlane.construct 3 ⟨180, 3⟩).m_SessionCount = 3 ∧
    (ControlPlane.construct 3 ⟨180, 3⟩).m_BGPSessions[2]?
        = some (BGPSession.construct 2 ⟨180, 3⟩) ∧
    (BGPSession.construct 2 ⟨180, 3⟩).m_PeeringInterface = 2 ∧
    (BGPSession.construct 2 ⟨180, 3⟩).m_HoldDownTime
        = (180 : Nat) ∧
    (BGPSession.construct 2 ⟨180, 3⟩).m_KeepaliveFraction
        = (3 : Nat) ∧
    (BGPSession.construct 2 ⟨180, 3⟩).m_KeepaliveTime
        = BGPSessionParameters.keepaliveTime ⟨180, 3⟩ :=
  controlPlane_construct_sessions 3 2 ⟨180, 3⟩ (by decide)
